import Mathlib

/-! Verification of the subscription-management service core.

The development shallowly embeds the Go source of the repository
`wuyiadepoju/subscription-management`:

* `internal/app/subscription/domain` — the `Subscription` aggregate
  (`NewSubscription`, `Subscription.Cancel`, `ReconstructFromPersistence`,
  the read-only accessors), its domain events and errors;
* `internal/app/subscription/usecases/cancel_subscription/interactor.go` —
  the `CancelSubscription` workflow (`Interactor.Execute`), with the
  repository port and the billing port modelled as explicit fault flags and
  an explicit key-value store (the Spanner repository adapter's `Save`
  produces an `InsertOrUpdate` mutation and `Apply` commits it);
* a small interleaving semantics for two concurrent `Execute` invocations
  against the shared store, used to settle the concurrency claim.

Modelling conventions: Go `time.Time` instants and `time.Duration` values are
integer nanosecond counts; Go `int64` arithmetic is exact `Int` arithmetic
wrapped through `wrap64` (two's-complement wrap-around) at every operation
that can overflow; Go's integer division truncates toward zero (`Int.tdiv`)
and a division by zero — which panics at run time in Go — is a dedicated
result-constructor; the conversion `int64(float64-expression)` in the
elapsed-days computation also truncates toward zero, and is modelled as exact
truncated division (the float computation is exact on the ranges exercised by
the repository's tests). -/

namespace SubscriptionMgmt

/-- Go `time.Time`, as an integer count of nanoseconds from an arbitrary epoch. -/
abbrev Time := Int

/-- Nanoseconds of one 24-hour day (the divisor in `Hours() / 24` over nanoseconds). -/
def nsPerDay : Int := 86400000000000

/-- Largest value of a Go `int64`. -/
def i64max : Int := 9223372036854775807

/-- Smallest value of a Go `int64`. -/
def i64min : Int := -9223372036854775808

/-- Two's-complement wrap-around of Go `int64` arithmetic: the result of an
`int64` operation whose exact value is `x`. -/
def wrap64 (x : Int) : Int :=
  (x + 9223372036854775808) % 18446744073709551616 - 9223372036854775808

/-- Go `Time.Sub` returns a `time.Duration` (int64 nanoseconds) and saturates
at the `int64` bounds instead of wrapping. -/
def durSub (t u : Time) : Int :=
  if t - u > i64max then i64max
  else if t - u < i64min then i64min
  else t - u

/-- Embedding of `int64(now.Sub(s.startDate).Hours() / 24)` from
`Subscription.Cancel`: the nanosecond difference divided by the nanoseconds of
one day, truncated toward zero (both the Go float division and the
`float64 → int64` conversion truncate toward zero on the ranges involved). -/
def goDaysElapsed (now startDate : Time) : Int :=
  Int.tdiv (durSub now startDate) nsPerDay

/-- The `domain.Clock` port (`Now() time.Time`). A clock value is determined
by the instant it reports, exactly as the source's deterministic `FixedClock`. -/
structure Clock where
  now : Time
deriving DecidableEq

/-- The Go type `domain.SubscriptionStatus` is a string type. -/
abbrev SubscriptionStatus := String

/-- Constant `domain.StatusActive`. -/
def StatusActive : SubscriptionStatus := "ACTIVE"

/-- Constant `domain.StatusCancelled`. -/
def StatusCancelled : SubscriptionStatus := "CANCELLED"

/-- The `domain.Subscription` aggregate root, with its six private fields. -/
structure Subscription where
  id : String
  customerID : String
  planID : String
  price : Int
  status : SubscriptionStatus
  startDate : Time
deriving DecidableEq

/-- The `domain.SubscriptionCreatedEvent` value object. -/
structure SubscriptionCreatedEvent where
  subscriptionID : String
  customerID : String
  planID : String
  price : Int
  createdAt : Time
deriving DecidableEq

/-- The `domain.SubscriptionCancelledEvent` value object. -/
structure SubscriptionCancelledEvent where
  subscriptionID : String
  customerID : String
  refundAmount : Int
  cancelledAt : Time
deriving DecidableEq

/-- The sentinel errors of `domain/errors.go`, together with three opaque
errors standing for whatever error value the repository port's `Save` or
`Apply` or the billing port's `ProcessRefund` returned. -/
inductive DomainError
  | errInvalidCustomer
  | errAlreadyCancelled
  | errSubscriptionNotFound
  | errInvalidPrice
  | errInvalidPlanID
  | errInvalidCustomerID
  | saveError
  | applyError
  | refundError
deriving DecidableEq

/-- Result of `domain.NewSubscription`: an error, or the aggregate together
with its `Created` event (Go returns `(*Subscription, *Event, error)`). -/
inductive NewSubscriptionResult
  | err (e : DomainError)
  | ok (sub : Subscription) (event : SubscriptionCreatedEvent)
deriving DecidableEq

/-- Embedding of `domain.NewSubscription` (validation order as in the source:
customerID, then planID, then priceCents). -/
def NewSubscription (id customerID planID : String) (priceCents : Int)
    (clock : Clock) : NewSubscriptionResult :=
  if customerID = "" then .err .errInvalidCustomerID
  else if planID = "" then .err .errInvalidPlanID
  else if priceCents ≤ 0 then .err .errInvalidPrice
  else
    .ok ⟨id, customerID, planID, priceCents, StatusActive, clock.now⟩
      ⟨id, customerID, planID, priceCents, clock.now⟩

/-- Result of `Subscription.Cancel`. `divByZero` is the Go run-time panic of
the integer division when `billingCycleDays = 0`; `ok` carries the event and
the updated aggregate (the Go method mutates the receiver in place, which the
embedding renders as explicit state passing). -/
inductive CancelResult
  | alreadyCancelled
  | divByZero
  | ok (event : SubscriptionCancelledEvent) (after : Subscription)
deriving DecidableEq

/-- The refund computation of `Subscription.Cancel`, given the price, the
billing-cycle length and the raw elapsed-days value: clamp `daysElapsed` from
above at `billingCycleDays` (note: no clamp from below at zero), then
`refundCents := (price * (billingCycleDays - daysElapsed)) / billingCycleDays`
in wrapping `int64` arithmetic with truncating division, then clamp a negative
result to zero. -/
def goRefund (price billingCycleDays daysElapsed0 : Int) : Int :=
  let daysElapsed :=
    if daysElapsed0 ≥ billingCycleDays then billingCycleDays else daysElapsed0
  let refund0 :=
    wrap64 (Int.tdiv (wrap64 (price * wrap64 (billingCycleDays - daysElapsed)))
      billingCycleDays)
  if refund0 < 0 then 0 else refund0

/-- Embedding of `Subscription.Cancel`: fail with `ErrAlreadyCancelled` when
the status is already `CANCELLED`; panic on the division when
`billingCycleDays = 0` (the source has no zero-guard); otherwise compute the
prorated refund, set the status to `CANCELLED` and return the event. -/
def Subscription.Cancel (s : Subscription) (clock : Clock)
    (billingCycleDays : Int) : CancelResult :=
  if s.status = StatusCancelled then .alreadyCancelled
  else if billingCycleDays = 0 then .divByZero
  else
    .ok
      ⟨s.id, s.customerID,
        goRefund s.price billingCycleDays
          (goDaysElapsed clock.now s.startDate),
        clock.now⟩
      { s with status := StatusCancelled }

/-- Embedding of `domain.ReconstructFromPersistence`: rehydrate an aggregate
from storage verbatim, with no validation. -/
def ReconstructFromPersistence (id customerID planID : String)
    (priceCents : Int) (status : SubscriptionStatus) (startDate : Time) :
    Subscription :=
  ⟨id, customerID, planID, priceCents, status, startDate⟩

/-- Accessor `Subscription.ID()`. -/
def Subscription.ID (s : Subscription) : String := s.id

/-- Accessor `Subscription.CustomerID()`. -/
def Subscription.CustomerID (s : Subscription) : String := s.customerID

/-- Accessor `Subscription.PlanID()`. -/
def Subscription.PlanID (s : Subscription) : String := s.planID

/-- Accessor `Subscription.Price()`. -/
def Subscription.Price (s : Subscription) : Int := s.price

/-- Accessor `Subscription.Status()`. -/
def Subscription.Status (s : Subscription) : SubscriptionStatus := s.status

/-- Accessor `Subscription.StartDate()`. -/
def Subscription.StartDate (s : Subscription) : Time := s.startDate

/-- The persistent state behind the repository port: the `subscriptions`
table, one row per primary key `id`. -/
abbrev Store := List (String × Subscription)

/-- Embedding of `SubscriptionRepo.FindByID`: the row with the given key,
rehydrated, or nothing (the adapter then returns `ErrSubscriptionNotFound`). -/
def findByID (store : Store) (key : String) : Option Subscription :=
  (store.find? (fun e => e.1 == key)).map (fun e => e.2)

/-- Embedding of the commit of the mutation produced by
`SubscriptionRepo.Save`: `spanner.InsertOrUpdate` is an unconditional upsert
keyed by `id` — it overwrites an existing row (last write wins) and never
fails because of the row's current contents. -/
def insertOrUpdate (store : Store) (key : String) (sub : Subscription) :
    Store :=
  if store.any (fun e => e.1 == key) then
    store.map (fun e => if e.1 == key then (key, sub) else e)
  else store ++ [(key, sub)]

/-- Fault model for the two ports of the cancel workflow: whether the
repository's `Save` call errors, whether its `Apply` call errors, and whether
the billing port's `ProcessRefund` call errors. -/
structure Ports where
  saveFails : Bool
  applyFails : Bool
  refundFails : Bool
deriving DecidableEq

/-- The `cancel_subscription.Interactor` struct: injected clock and
billing-cycle length (repository and billing client are accounted for by
`Ports` and the explicit `Store`). -/
structure CancelInteractor where
  clock : Clock
  billingCycleDays : Int
deriving DecidableEq

/-- Embedding of `cancel_subscription.NewInteractor`: it stores the supplied
`billingCycleDays` without any validation. -/
def NewInteractor (clock : Clock) (billingCycleDays : Int) :
    CancelInteractor :=
  ⟨clock, billingCycleDays⟩

/-- The `(event, error)` pair returned by `Interactor.Execute`: a bare error
(`event == nil`), a bare event (`error == nil`), both at once (the
refund-settlement-failed path returns `event, err`), or a run-time panic. -/
inductive ExecOutcome
  | err (e : DomainError)
  | ok (event : SubscriptionCancelledEvent)
  | okWithErr (event : SubscriptionCancelledEvent) (e : DomainError)
  | crashed
deriving DecidableEq

/-- Whether the workflow produced a `Cancelled` event for its caller. -/
def ExecOutcome.succeeded : ExecOutcome → Bool
  | .ok _ => true
  | .okWithErr _ _ => true
  | .err _ => false
  | .crashed => false

/-- Observable result of one `Interactor.Execute` run: the returned
`(event, error)` pair, the persistent store afterwards, and the amounts passed
to the billing port's `ProcessRefund` (the settlement attempts made). -/
structure ExecResult where
  outcome : ExecOutcome
  store : Store
  refundAttempts : List Int
deriving DecidableEq

/-- Embedding of `Interactor.Execute` of the cancel workflow: load the
aggregate (step 1), cancel it in memory (step 2), obtain and apply the save
mutation (steps 3 and 4, each propagating a port error as-is), and finally,
when the refund amount is strictly positive, call `ProcessRefund` — returning
the event together with the error when that call fails (step 5). -/
def CancelInteractor.Execute (i : CancelInteractor) (ports : Ports)
    (store : Store) (subscriptionID : String) : ExecResult :=
  match findByID store subscriptionID with
  | none => ⟨.err .errSubscriptionNotFound, store, []⟩
  | some sub =>
    match sub.Cancel i.clock i.billingCycleDays with
    | .alreadyCancelled => ⟨.err .errAlreadyCancelled, store, []⟩
    | .divByZero => ⟨.crashed, store, []⟩
    | .ok event sub2 =>
      if ports.saveFails then ⟨.err .saveError, store, []⟩
      else if ports.applyFails then ⟨.err .applyError, store, []⟩
      else
        let store2 := insertOrUpdate store sub2.id sub2
        if 0 < event.refundAmount then
          if ports.refundFails then
            ⟨.okWithErr event .refundError, store2, [event.refundAmount]⟩
          else ⟨.ok event, store2, [event.refundAmount]⟩
        else ⟨.ok event, store2, []⟩

/-- Program counter of one in-flight `Execute` invocation, for the
interleaving semantics of two concurrent cancellations: each constructor is
the state after one of the workflow's atomic interactions (load; local
`Cancel`; commit of the `InsertOrUpdate` mutation; refund call). -/
inductive WorkerPC
  | start
  | loaded (sub : Subscription)
  | localCancelled (event : SubscriptionCancelledEvent) (after : Subscription)
  | committed (event : SubscriptionCancelledEvent)
  | done (event : SubscriptionCancelledEvent)
  | failed (e : DomainError)
  | crashed
deriving DecidableEq

/-- One atomic step of one worker running `Interactor.Execute` against the
shared store (ports fault-free: the Spanner `InsertOrUpdate` commit succeeds
regardless of the row's current contents). Terminal states do not move. -/
def workerStep (clock : Clock) (billingCycleDays : Int) (subID : String) :
    WorkerPC → Store → List Int → WorkerPC × Store × List Int
  | .start, store, refunds =>
    (match findByID store subID with
     | none => (.failed .errSubscriptionNotFound, store, refunds)
     | some sub => (.loaded sub, store, refunds))
  | .loaded sub, store, refunds =>
    (match sub.Cancel clock billingCycleDays with
     | .alreadyCancelled => (.failed .errAlreadyCancelled, store, refunds)
     | .divByZero => (.crashed, store, refunds)
     | .ok event after => (.localCancelled event after, store, refunds))
  | .localCancelled event after, store, refunds =>
    (.committed event, insertOrUpdate store after.id after, refunds)
  | .committed event, store, refunds =>
    if 0 < event.refundAmount then
      (.done event, store, refunds ++ [event.refundAmount])
    else (.done event, store, refunds)
  | pc, store, refunds => (pc, store, refunds)

/-- Combined state of two concurrent `Execute` invocations over the shared
store, plus the global list of refund-settlement attempts. -/
structure ConcurrentState where
  w0 : WorkerPC
  w1 : WorkerPC
  store : Store
  refundAttempts : List Int
deriving DecidableEq

/-- Run one atomic step of the scheduled worker (`false` schedules worker 0,
`true` schedules worker 1). -/
def schedStep (clock : Clock) (billingCycleDays : Int) (subID : String)
    (st : ConcurrentState) (which : Bool) : ConcurrentState :=
  if which then
    let r := workerStep clock billingCycleDays subID st.w1 st.store
      st.refundAttempts
    ⟨st.w0, r.1, r.2.1, r.2.2⟩
  else
    let r := workerStep clock billingCycleDays subID st.w0 st.store
      st.refundAttempts
    ⟨r.1, st.w1, r.2.1, r.2.2⟩

/-- Run a whole interleaving schedule. -/
def runSchedule (clock : Clock) (billingCycleDays : Int) (subID : String)
    (st : ConcurrentState) : List Bool → ConcurrentState
  | [] => st
  | w :: rest => runSchedule clock billingCycleDays subID
      (schedStep clock billingCycleDays subID st w) rest

/-- Sample id from the repository's test fixtures. -/
def sampleID : String := "sub-123"

/-- Sample customer id from the repository's test fixtures. -/
def sampleCustomer : String := "cust-456"

/-- Sample plan id from the repository's test fixtures. -/
def samplePlan : String := "plan-789"

/-- The test-fixture aggregate: active, price 3000 cents, start date at the
epoch. -/
def sampleSub : Subscription :=
  ReconstructFromPersistence sampleID sampleCustomer samplePlan 3000
    StatusActive 0

/-- The fixture aggregate after cancellation. -/
def cancelledSampleSub : Subscription :=
  { sampleSub with status := StatusCancelled }

/-- A clock standing `n` whole days after the fixture's start date. -/
def clockAtDay (n : Int) : Clock := ⟨n * nsPerDay⟩

/-- A store holding exactly the fixture aggregate. -/
def sampleStore : Store := [(sampleID, sampleSub)]

/-- A store holding the fixture aggregate already cancelled. -/
def cancelledStore : Store := [(sampleID, cancelledSampleSub)]

/-- The event `Cancel` emits for the fixture at day 15 of a 30-day cycle
(refund 1500 cents). -/
def sampleCancelEvent : SubscriptionCancelledEvent :=
  ⟨sampleID, sampleCustomer, 1500, (clockAtDay 15).now⟩

/-- The `Created` event for the fixture's field values at the epoch. -/
def sampleCreatedEvent : SubscriptionCreatedEvent :=
  ⟨sampleID, sampleCustomer, samplePlan, 3000, 0⟩

/-- Helper: `wrap64` is the identity on values already inside the `int64`
range. -/
theorem wrap64_eq_self {x : Int} (h1 : i64min ≤ x) (h2 : x ≤ i64max) :
    wrap64 x = x := by
  unfold i64min at h1
  unfold i64max at h2
  unfold wrap64
  rw [Int.emod_eq_of_lt (by omega) (by omega)]
  omega

/-- Helper: shape of a successful `Cancel` on a not-yet-cancelled aggregate
with a nonzero billing cycle. -/
theorem cancel_of_active (s : Subscription) (clock : Clock) (d : Int)
    (hact : s.status ≠ StatusCancelled) (hd : d ≠ 0) :
    s.Cancel clock d =
      .ok
        ⟨s.id, s.customerID,
          goRefund s.price d (goDaysElapsed clock.now s.startDate), clock.now⟩
        { s with status := StatusCancelled } := by
  unfold Subscription.Cancel
  rw [if_neg hact, if_neg hd]

/-- Helper: inversion of a successful `Cancel`. -/
theorem cancel_ok_inv {s : Subscription} {clock : Clock} {d : Int}
    {event : SubscriptionCancelledEvent} {s' : Subscription}
    (h : s.Cancel clock d = .ok event s') :
    s' = { s with status := StatusCancelled } ∧
      event =
        ⟨s.id, s.customerID,
          goRefund s.price d (goDaysElapsed clock.now s.startDate),
          clock.now⟩ ∧
      s.status ≠ StatusCancelled ∧ d ≠ 0 := by
  unfold Subscription.Cancel at h
  split at h
  · exact absurd h (by simp)
  · split at h
    · exact absurd h (by simp)
    · injection h with h1 h2
      subst h2
      refine ⟨rfl, h1.symm, ?_, ?_⟩
      · assumption
      · assumption

/-- Helper: on a nonnegative price, a positive cycle length and bounds that
keep the `int64` operations from overflowing, the refund computation is
exactly the specification's formula `(price * (d - min daysElapsed d)) / d`
with truncating division. -/
theorem goRefund_eq_formula (p d e0 : Int) (hp : 0 ≤ p) (hd : 0 < d)
    (hsub : d - min e0 d ≤ i64max) (hmul : p * (d - min e0 d) ≤ i64max) :
    goRefund p d e0 = Int.tdiv (p * (d - min e0 d)) d := by
  have hE : (if e0 ≥ d then d else e0) = min e0 d := by
    split <;> omega
  have hder : 0 ≤ d - min e0 d := by omega
  have hw1 : wrap64 (d - min e0 d) = d - min e0 d :=
    wrap64_eq_self (by unfold i64min; omega) hsub
  have hn : 0 ≤ p * (d - min e0 d) := mul_nonneg hp hder
  have hw2 : wrap64 (p * (d - min e0 d)) = p * (d - min e0 d) :=
    wrap64_eq_self (by unfold i64min; omega) hmul
  have ht0 : 0 ≤ Int.tdiv (p * (d - min e0 d)) d :=
    Int.tdiv_nonneg hn (le_of_lt hd)
  have hte : Int.tdiv (p * (d - min e0 d)) d = p * (d - min e0 d) / d :=
    Int.tdiv_eq_ediv hn (le_of_lt hd)
  have ht1 : Int.tdiv (p * (d - min e0 d)) d ≤ i64max := by
    rw [hte]
    exact le_trans (Int.ediv_le_self d hn) hmul
  have hw3 : wrap64 (Int.tdiv (p * (d - min e0 d)) d) =
      Int.tdiv (p * (d - min e0 d)) d :=
    wrap64_eq_self (by unfold i64min; omega) ht1
  unfold goRefund
  simp only [hE, hw1, hw2, hw3]
  rw [if_neg (not_lt.2 ht0)]

/-- C1: for every Active subscription with nonnegative price `p` and every
`billingCycleDays` `d > 0`, within the bounds where the `int64` arithmetic
does not overflow, `Cancel` computes the refund as
`(p * (d - daysElapsed)) / d` with truncating division, where `daysElapsed`
is first clamped to at most `d`; in particular for `d = 30`, `p = 3000`:
`daysElapsed` 15 yields 1500, 1 yields 2900, 30 yields 0, 45 (beyond the
cycle, clamped to 30) yields 0, and 0 yields 3000. -/
theorem cancel_computes_prorated_refund :
  (∀ (s : Subscription) (clock : Clock) (d : Int),
      s.Status = StatusActive → 0 ≤ s.Price → 0 < d →
      d - min (goDaysElapsed clock.now s.StartDate) d ≤ i64max →
      s.Price * (d - min (goDaysElapsed clock.now s.StartDate) d) ≤ i64max →
      s.Cancel clock d =
        .ok
          ⟨s.ID, s.CustomerID,
            Int.tdiv
              (s.Price * (d - min (goDaysElapsed clock.now s.StartDate) d))
              d,
            clock.now⟩
          { s with status := StatusCancelled }) ∧
  sampleSub.Cancel (clockAtDay 15) 30 =
    .ok ⟨sampleID, sampleCustomer, 1500, (clockAtDay 15).now⟩
      cancelledSampleSub ∧
  sampleSub.Cancel (clockAtDay 1) 30 =
    .ok ⟨sampleID, sampleCustomer, 2900, (clockAtDay 1).now⟩
      cancelledSampleSub ∧
  sampleSub.Cancel (clockAtDay 30) 30 =
    .ok ⟨sampleID, sampleCustomer, 0, (clockAtDay 30).now⟩
      cancelledSampleSub ∧
  sampleSub.Cancel (clockAtDay 45) 30 =
    .ok ⟨sampleID, sampleCustomer, 0, (clockAtDay 45).now⟩
      cancelledSampleSub ∧
  sampleSub.Cancel (clockAtDay 0) 30 =
    .ok ⟨sampleID, sampleCustomer, 3000, (clockAtDay 0).now⟩
      cancelledSampleSub := by
  refine ⟨?_, by decide, by decide, by decide, by decide, by decide⟩
  intro s clock d hact hp hd hsub hmul
  have hact' : s.status ≠ StatusCancelled := by
    have h : s.status = StatusActive := hact
    rw [h]
    decide
  rw [cancel_of_active s clock d hact' (by omega)]
  rw [goRefund_eq_formula s.price d (goDaysElapsed clock.now s.startDate)
    hp hd hsub hmul]
  rfl

/-- Witness for C1: the general proration theorem applied at the day-15
fixture. -/
theorem cancel_computes_prorated_refund_witness :
  sampleSub.Cancel (clockAtDay 15) 30 =
    .ok
      ⟨sampleSub.ID, sampleSub.CustomerID,
        Int.tdiv
          (sampleSub.Price *
            (30 - min (goDaysElapsed (clockAtDay 15).now sampleSub.StartDate)
              30))
          30,
        (clockAtDay 15).now⟩
      { sampleSub with status := StatusCancelled } :=
  cancel_computes_prorated_refund.1 sampleSub (clockAtDay 15) 30 (by decide)
    (by decide) (by decide) (by decide) (by decide)

/-- C2 fails on the code: `Cancel` never clamps a negative elapsed-days value
to zero. For a clock standing 36 hours before `startDate`, `daysElapsed`
evaluates to `-1`, the clamp `daysElapsed >= billingCycleDays` does not fire,
and the refund comes out as `3000 * (30 - (-1)) / 30 = 3100`, strictly more
than the 3000-cent price. This theorem evaluates the embedded code at that
failing input. -/
theorem cancel_clock_behind_start_exceeds_price :
  goDaysElapsed 0 129600000000000 = -1 ∧
  (ReconstructFromPersistence sampleID sampleCustomer samplePlan 3000
      StatusActive 129600000000000).Cancel ⟨0⟩ 30 =
    .ok ⟨sampleID, sampleCustomer, 3100, 0⟩
      (ReconstructFromPersistence sampleID sampleCustomer samplePlan 3000
        StatusCancelled 129600000000000) ∧
  (3000 : Int) < 3100 := by
  refine ⟨by decide, by decide, by decide⟩

/-- C3: when the repository's `Save` or `Apply` fails, the cancel workflow
returns no event to its caller, the persisted store is unchanged (so no
aggregate with status `CANCELLED` is observable — the in-memory change is
discarded with the local variable), and no refund is attempted. -/
theorem cancel_workflow_persistence_failure_discards :
  ∀ (i : CancelInteractor) (ports : Ports) (store : Store) (subID : String),
    ports.saveFails = true ∨ ports.applyFails = true →
    (i.Execute ports store subID).outcome.succeeded = false ∧
      (i.Execute ports store subID).store = store ∧
      (i.Execute ports store subID).refundAttempts = [] := by
  intro i ports store subID h
  rcases hfind : findByID store subID with _ | sub
  · simp [CancelInteractor.Execute, hfind, ExecOutcome.succeeded]
  · rcases hc : sub.Cancel i.clock i.billingCycleDays with _ | _ | ⟨event, sub2⟩
    · simp [CancelInteractor.Execute, hfind, hc, ExecOutcome.succeeded]
    · simp [CancelInteractor.Execute, hfind, hc, ExecOutcome.succeeded]
    · rcases h with h | h
      · simp [CancelInteractor.Execute, hfind, hc, h, ExecOutcome.succeeded]
      · cases hs : ports.saveFails
        · simp [CancelInteractor.Execute, hfind, hc, h, hs,
            ExecOutcome.succeeded]
        · simp [CancelInteractor.Execute, hfind, hc, hs,
            ExecOutcome.succeeded]

/-- Witness for C3: a failing `Save` at the day-15 fixture. -/
theorem cancel_workflow_persistence_failure_discards_witness :
  ((NewInteractor (clockAtDay 15) 30).Execute ⟨true, false, false⟩
      sampleStore sampleID).outcome.succeeded = false ∧
    ((NewInteractor (clockAtDay 15) 30).Execute ⟨true, false, false⟩
      sampleStore sampleID).store = sampleStore ∧
    ((NewInteractor (clockAtDay 15) 30).Execute ⟨true, false, false⟩
      sampleStore sampleID).refundAttempts = [] :=
  cancel_workflow_persistence_failure_discards (NewInteractor (clockAtDay 15)
    30) ⟨true, false, false⟩ sampleStore sampleID (Or.inl rfl)

/-- C4: the billing port's refund call is made only when both `Save` and
`Apply` succeeded and only for a strictly positive computed refund; and when
the refund call itself fails, the workflow still returns the `Cancelled`
event together with the settlement error, with the committed cancellation
left in the store (no rollback). -/
theorem refund_settlement_after_commit_only :
  (∀ (i : CancelInteractor) (ports : Ports) (store : Store) (subID : String),
      ports.saveFails = true ∨ ports.applyFails = true →
      (i.Execute ports store subID).refundAttempts = []) ∧
  (∀ (i : CancelInteractor) (ports : Ports) (store : Store) (subID : String)
      (a : Int),
      a ∈ (i.Execute ports store subID).refundAttempts → 0 < a) ∧
  (∀ (i : CancelInteractor) (ports : Ports) (store : Store) (subID : String)
      (sub : Subscription) (event : SubscriptionCancelledEvent)
      (sub2 : Subscription),
      findByID store subID = some sub →
      sub.Cancel i.clock i.billingCycleDays = .ok event sub2 →
      ports.saveFails = false → ports.applyFails = false →
      0 < event.refundAmount → ports.refundFails = true →
      i.Execute ports store subID =
        ⟨.okWithErr event .refundError, insertOrUpdate store sub2.id sub2,
          [event.refundAmount]⟩) := by
  refine ⟨?_, ?_, ?_⟩
  · intro i ports store subID h
    rcases hfind : findByID store subID with _ | sub
    · simp [CancelInteractor.Execute, hfind]
    · rcases hc : sub.Cancel i.clock i.billingCycleDays with _ | _ |
        ⟨event, sub2⟩
      · simp [CancelInteractor.Execute, hfind, hc]
      · simp [CancelInteractor.Execute, hfind, hc]
      · rcases h with h | h
        · simp [CancelInteractor.Execute, hfind, hc, h]
        · cases hs : ports.saveFails
          · simp [CancelInteractor.Execute, hfind, hc, h, hs]
          · simp [CancelInteractor.Execute, hfind, hc, hs]
  · intro i ports store subID a ha
    rcases hfind : findByID store subID with _ | sub
    · simp [CancelInteractor.Execute, hfind] at ha
    · rcases hc : sub.Cancel i.clock i.billingCycleDays with _ | _ |
        ⟨event, sub2⟩
      · simp [CancelInteractor.Execute, hfind, hc] at ha
      · simp [CancelInteractor.Execute, hfind, hc] at ha
      · cases hs : ports.saveFails
        · cases happ : ports.applyFails
          · by_cases hpos : 0 < event.refundAmount
            · cases hr : ports.refundFails
              · simp [CancelInteractor.Execute, hfind, hc, hs, happ, hpos,
                  hr] at ha
                omega
              · simp [CancelInteractor.Execute, hfind, hc, hs, happ, hpos,
                  hr] at ha
                omega
            · simp [CancelInteractor.Execute, hfind, hc, hs, happ, hpos]
                at ha
          · simp [CancelInteractor.Execute, hfind, hc, hs, happ] at ha
        · simp [CancelInteractor.Execute, hfind, hc, hs] at ha
  · intro i ports store subID sub event sub2 hfind hc hs ha hpos hr
    simp [CancelInteractor.Execute, hfind, hc, hs, ha, hr, hpos]

/-- Witness for C4: the refund-failure clause at the day-15 fixture. -/
theorem refund_settlement_after_commit_only_witness :
  (NewInteractor (clockAtDay 15) 30).Execute ⟨false, false, true⟩ sampleStore
      sampleID =
    ⟨.okWithErr sampleCancelEvent .refundError,
      insertOrUpdate sampleStore cancelledSampleSub.id cancelledSampleSub,
      [sampleCancelEvent.refundAmount]⟩ :=
  refund_settlement_after_commit_only.2.2 (NewInteractor (clockAtDay 15) 30)
    ⟨false, false, true⟩ sampleStore sampleID sampleSub sampleCancelEvent
    cancelledSampleSub (by decide) (by decide) rfl rfl (by decide) rfl

/-- C5: a second `Cancel` after a successful one fails with
`ErrAlreadyCancelled` and the status stays `CANCELLED`; and when the cancel
workflow loads an already-cancelled subscription it returns exactly
`ErrAlreadyCancelled`, leaves the store unchanged and attempts no refund. -/
theorem cancel_idempotent :
  (∀ (s : Subscription) (c1 c2 : Clock) (d1 d2 : Int)
      (event : SubscriptionCancelledEvent) (s' : Subscription),
      s.Cancel c1 d1 = .ok event s' →
      s'.Cancel c2 d2 = .alreadyCancelled ∧ s'.Status = StatusCancelled) ∧
  (∀ (i : CancelInteractor) (ports : Ports) (store : Store) (subID : String)
      (sub : Subscription),
      findByID store subID = some sub → sub.Status = StatusCancelled →
      i.Execute ports store subID = ⟨.err .errAlreadyCancelled, store, []⟩) := by
  constructor
  · intro s c1 c2 d1 d2 event s' h
    obtain ⟨hs', -, -, -⟩ := cancel_ok_inv h
    subst hs'
    constructor
    · unfold Subscription.Cancel
      rw [if_pos rfl]
    · rfl
  · intro i ports store subID sub hfind hst
    have hst' : sub.status = StatusCancelled := hst
    have hc : sub.Cancel i.clock i.billingCycleDays = .alreadyCancelled := by
      unfold Subscription.Cancel
      rw [if_pos hst']
    simp [CancelInteractor.Execute, hfind, hc]

/-- Witness for C5: the workflow clause at the already-cancelled fixture. -/
theorem cancel_idempotent_witness :
  (NewInteractor (clockAtDay 15) 30).Execute ⟨false, false, false⟩
      cancelledStore sampleID =
    ⟨.err .errAlreadyCancelled, cancelledStore, []⟩ :=
  cancel_idempotent.2 (NewInteractor (clockAtDay 15) 30)
    ⟨false, false, false⟩ cancelledStore sampleID cancelledSampleSub
    (by decide) (by decide)

/-- Empty identifier, for the validation counterexample. -/
def emptyID : String := ""

/-- Counterexample to C6 as stated: with both `customerID` and `planID` empty
the constructor fails with the customer-ID error, so an empty `planID` does
not always yield the `InvalidPlan` error — the validations are ordered, not
independent iffs. -/
theorem newSubscription_empty_plan_yields_customer_error :
  NewSubscription sampleID emptyID emptyID 100 ⟨0⟩ =
      .err .errInvalidCustomerID ∧
    NewSubscription sampleID emptyID emptyID 100 ⟨0⟩ ≠
      .err .errInvalidPlanID := by
  refine ⟨by decide, by decide⟩

/-- C6 amended: `NewSubscription` fails with the customer-ID error exactly
when `customerID` is empty; with the plan-ID error exactly when `customerID`
is nonempty and `planID` is empty; with the price error exactly when both ids
are nonempty and `priceCents ≤ 0`; and on every valid input it succeeds with
status `ACTIVE`, `startDate = clock.now`, and a `Created` event carrying the
id, customerID, planID, price and the creation instant. -/
theorem newSubscription_validation :
  ∀ (id customerID planID : String) (priceCents : Int) (clock : Clock),
    (NewSubscription id customerID planID priceCents clock =
        .err .errInvalidCustomerID ↔ customerID = "") ∧
    (NewSubscription id customerID planID priceCents clock =
        .err .errInvalidPlanID ↔ customerID ≠ "" ∧ planID = "") ∧
    (NewSubscription id customerID planID priceCents clock =
        .err .errInvalidPrice ↔
      customerID ≠ "" ∧ planID ≠ "" ∧ priceCents ≤ 0) ∧
    (customerID ≠ "" → planID ≠ "" → 0 < priceCents →
      NewSubscription id customerID planID priceCents clock =
        .ok ⟨id, customerID, planID, priceCents, StatusActive, clock.now⟩
          ⟨id, customerID, planID, priceCents, clock.now⟩) := by
  intro id customerID planID priceCents clock
  unfold NewSubscription
  by_cases h1 : customerID = "" <;> by_cases h2 : planID = "" <;>
    by_cases h3 : priceCents ≤ 0 <;>
      simp [h1, h2, h3]

/-- Witness for C6 amended: the success clause at the fixture's inputs. -/
theorem newSubscription_validation_witness :
  NewSubscription sampleID sampleCustomer samplePlan 3000 ⟨0⟩ =
    .ok ⟨sampleID, sampleCustomer, samplePlan, 3000, StatusActive, 0⟩
      ⟨sampleID, sampleCustomer, samplePlan, 3000, 0⟩ :=
  (newSubscription_validation sampleID sampleCustomer samplePlan 3000
    ⟨0⟩).2.2.2 (by decide) (by decide) (by decide)

/-- C7: reconstructing from the accessor values of a successfully constructed
subscription yields an aggregate on which every accessor agrees with the
original. -/
theorem reconstruct_roundtrip :
  ∀ (id customerID planID : String) (priceCents : Int) (clock : Clock)
    (sub : Subscription) (event : SubscriptionCreatedEvent),
    NewSubscription id customerID planID priceCents clock = .ok sub event →
    ((ReconstructFromPersistence sub.ID sub.CustomerID sub.PlanID sub.Price
        sub.Status sub.StartDate).ID = sub.ID ∧
      (ReconstructFromPersistence sub.ID sub.CustomerID sub.PlanID sub.Price
        sub.Status sub.StartDate).CustomerID = sub.CustomerID ∧
      (ReconstructFromPersistence sub.ID sub.CustomerID sub.PlanID sub.Price
        sub.Status sub.StartDate).PlanID = sub.PlanID ∧
      (ReconstructFromPersistence sub.ID sub.CustomerID sub.PlanID sub.Price
        sub.Status sub.StartDate).Price = sub.Price ∧
      (ReconstructFromPersistence sub.ID sub.CustomerID sub.PlanID sub.Price
        sub.Status sub.StartDate).Status = sub.Status ∧
      (ReconstructFromPersistence sub.ID sub.CustomerID sub.PlanID sub.Price
        sub.Status sub.StartDate).StartDate = sub.StartDate) := by
  intro id customerID planID priceCents clock sub event h
  exact ⟨rfl, rfl, rfl, rfl, rfl, rfl⟩

/-- Witness for C7: the round-trip at the fixture construction. -/
theorem reconstruct_roundtrip_witness :
  (ReconstructFromPersistence sampleSub.ID sampleSub.CustomerID
      sampleSub.PlanID sampleSub.Price sampleSub.Status
      sampleSub.StartDate).ID = sampleSub.ID ∧
    (ReconstructFromPersistence sampleSub.ID sampleSub.CustomerID
      sampleSub.PlanID sampleSub.Price sampleSub.Status
      sampleSub.StartDate).CustomerID = sampleSub.CustomerID ∧
    (ReconstructFromPersistence sampleSub.ID sampleSub.CustomerID
      sampleSub.PlanID sampleSub.Price sampleSub.Status
      sampleSub.StartDate).PlanID = sampleSub.PlanID ∧
    (ReconstructFromPersistence sampleSub.ID sampleSub.CustomerID
      sampleSub.PlanID sampleSub.Price sampleSub.Status
      sampleSub.StartDate).Price = sampleSub.Price ∧
    (ReconstructFromPersistence sampleSub.ID sampleSub.CustomerID
      sampleSub.PlanID sampleSub.Price sampleSub.Status
      sampleSub.StartDate).Status = sampleSub.Status ∧
    (ReconstructFromPersistence sampleSub.ID sampleSub.CustomerID
      sampleSub.PlanID sampleSub.Price sampleSub.Status
      sampleSub.StartDate).StartDate = sampleSub.StartDate :=
  reconstruct_roundtrip sampleID sampleCustomer samplePlan 3000 ⟨0⟩ sampleSub
    sampleCreatedEvent (by decide)

/-- C8: a successful `Cancel` changes only the status field, to `CANCELLED`;
id, customerID, planID, price and startDate are unchanged. In the embedding
`Cancel` is the aggregate's only state-transforming operation —
`NewSubscription` and `ReconstructFromPersistence` construct fresh values and
the accessors are pure projections — so nothing else changes the status after
construction. -/
theorem cancel_changes_only_status :
  ∀ (s : Subscription) (clock : Clock) (d : Int)
    (event : SubscriptionCancelledEvent) (s' : Subscription),
    s.Cancel clock d = .ok event s' →
    s'.ID = s.ID ∧ s'.CustomerID = s.CustomerID ∧ s'.PlanID = s.PlanID ∧
      s'.Price = s.Price ∧ s'.StartDate = s.StartDate ∧
      s'.Status = StatusCancelled ∧
      s' = { s with status := StatusCancelled } := by
  intro s clock d event s' h
  obtain ⟨hs', -, -, -⟩ := cancel_ok_inv h
  subst hs'
  exact ⟨rfl, rfl, rfl, rfl, rfl, rfl, rfl⟩

/-- Witness for C8: the frame property at the day-15 fixture. -/
theorem cancel_changes_only_status_witness :
  cancelledSampleSub.ID = sampleSub.ID ∧
    cancelledSampleSub.CustomerID = sampleSub.CustomerID ∧
    cancelledSampleSub.PlanID = sampleSub.PlanID ∧
    cancelledSampleSub.Price = sampleSub.Price ∧
    cancelledSampleSub.StartDate = sampleSub.StartDate ∧
    cancelledSampleSub.Status = StatusCancelled ∧
    cancelledSampleSub = { sampleSub with status := StatusCancelled } :=
  cancel_changes_only_status sampleSub (clockAtDay 15) 30 sampleCancelEvent
    cancelledSampleSub (by decide)

/-- The racing interleaving: both workers load the still-active row before
either commits, then both commit, then both settle (`false` steps worker 0,
`true` steps worker 1). -/
def raceSchedule : List Bool :=
  [false, true, false, true, false, true, false, true]

/-- C9 fails on the code: the repository's save mutation is an unconditional
`spanner.InsertOrUpdate`, not a conditional write, and the workflow never
maps a persistence failure to `ErrAlreadyCancelled`. Under the racing
interleaving both concurrent `Execute` invocations for the same id commit a
cancellation and both reach the refund step, producing two `ProcessRefund`
settlement attempts of 1500 cents for one subscription. -/
theorem concurrent_cancel_double_refund :
  (runSchedule (clockAtDay 15) 30 sampleID
      ⟨.start, .start, sampleStore, []⟩ raceSchedule).refundAttempts =
    [1500, 1500] ∧
  (runSchedule (clockAtDay 15) 30 sampleID
      ⟨.start, .start, sampleStore, []⟩ raceSchedule).w0 =
    .done sampleCancelEvent ∧
  (runSchedule (clockAtDay 15) 30 sampleID
      ⟨.start, .start, sampleStore, []⟩ raceSchedule).w1 =
    .done sampleCancelEvent ∧
  (runSchedule (clockAtDay 15) 30 sampleID
      ⟨.start, .start, sampleStore, []⟩ raceSchedule).store =
    cancelledStore := by
  refine ⟨by decide, by decide, by decide, by decide⟩

/-- C10: neither `NewInteractor` nor the aggregate guards the caller-supplied
`billingCycleDays`: the constructor stores any value unvalidated, and on a
not-yet-cancelled subscription `Cancel` reaches the division-by-zero panic
exactly when `billingCycleDays = 0` (so it is total for every nonzero value,
in particular whenever `billingCycleDays ≥ 1`). -/
theorem cancel_division_by_zero_reachable :
  (∀ (clock : Clock) (billingCycleDays : Int),
      (NewInteractor clock billingCycleDays).billingCycleDays =
        billingCycleDays) ∧
  (∀ (s : Subscription) (clock : Clock) (billingCycleDays : Int),
      s.Status = StatusActive →
      (s.Cancel clock billingCycleDays = .divByZero ↔
        billingCycleDays = 0)) := by
  constructor
  · intro clock billingCycleDays
    rfl
  · intro s clock d hact
    have hact' : s.status ≠ StatusCancelled := by
      have h : s.status = StatusActive := hact
      rw [h]
      decide
    constructor
    · intro h
      unfold Subscription.Cancel at h
      rw [if_neg hact'] at h
      by_contra hd
      rw [if_neg hd] at h
      exact absurd h (by simp)
    · intro h
      subst h
      unfold Subscription.Cancel
      rw [if_neg hact', if_pos rfl]

/-- Witness for C10: the division-by-zero panic fires at the active fixture
with a zero-day billing cycle. -/
theorem cancel_division_by_zero_reachable_witness :
  sampleSub.Cancel ⟨0⟩ 0 = .divByZero :=
  (cancel_division_by_zero_reachable.2 sampleSub ⟨0⟩ 0 (by decide)).mpr rfl

end SubscriptionMgmt
